import Mathlib

/-!
Verification of the FPL optimization solver against its specification.

The Lean definitions below are shallow embeddings of the Python sources:
`fpl_data.py` (historical stat aggregation), `fpl_model.py` (projection
engine) and `fpl_solver.py` (squad optimizer).  Machine floats are modelled
as exact rationals where the computation is rational, and as real numbers
where the source uses transcendental functions (log, exp, Poisson tails).
Missing tabular entries (pandas NaN) are modelled as `Option` values, with
arithmetic on a missing value producing a missing result, matching NaN
propagation.
-/

namespace FplSolver

/- ------------------------------------------------------------------ -/
/- Historical stat aggregation (fpl_data.py, fetch_single_player_history) -/
/- ------------------------------------------------------------------ -/

/-- One past season row of the element-summary history
(`fpl_data.py`, history_past). -/
structure SeasonRecord where
  season_name : String
  minutes : ℚ
  goals_scored : ℚ
  assists : ℚ
  bonus : ℚ
  saves : ℚ
  yellow_cards : ℚ
deriving DecidableEq

/-- Season filter from `fetch_single_player_history`: keep the three
recognized recent season labels with more than 250 minutes. -/
def eligible_seasons (past : List SeasonRecord) : List SeasonRecord :=
  (past.filter (fun r => decide (r.season_name ∈ ["2022/23", "2023/24", "2024/25"]))).filter
    (fun r => decide (r.minutes > 250))

/-- Per-90 conversion `(past[stat] / past["minutes"]) * 90`
(`fpl_data.py` line 80). -/
def per90 (stat minutes : ℚ) : ℚ :=
  stat / minutes * 90

/-- The season-count-indexed weight table of `fetch_single_player_history`
(lines 86-92): 1 season gives [1.0], 2 give [0.35, 0.65], otherwise
[0.1, 0.25, 0.65], in chronological order (most recent last). -/
def history_weights (n_seasons : ℕ) : List ℚ :=
  if n_seasons = 1 then [1.0]
  else if n_seasons = 2 then [0.35, 0.65]
  else [0.1, 0.25, 0.65]

/-- Weighted blend `sum(past[col].iloc[i] * weights[i] for i in range(n_seasons))`
(`fpl_data.py` line 96), applied to one per-90 statistic listed oldest first. -/
def blend_stat (vals : List ℚ) : ℚ :=
  ((vals.zip (history_weights vals.length)).map (fun vw => vw.1 * vw.2)).sum

/-- Blended per-90 history of `fetch_single_player_history`: `none` models the
sentinel returned when no eligible season remains; otherwise the five blended
rates (g, a, b, s, y). -/
def fetch_single_player_history (past : List SeasonRecord) :
    Option (ℚ × ℚ × ℚ × ℚ × ℚ) :=
  let el := eligible_seasons past
  if el.isEmpty then none
  else
    some (blend_stat (el.map (fun r => per90 r.goals_scored r.minutes)),
          blend_stat (el.map (fun r => per90 r.assists r.minutes)),
          blend_stat (el.map (fun r => per90 r.bonus r.minutes)),
          blend_stat (el.map (fun r => per90 r.saves r.minutes)),
          blend_stat (el.map (fun r => per90 r.yellow_cards r.minutes)))

/- ------------------------------------------------------------------ -/
/- Form multiplier and data preparation (fpl_model.py, prepare_data_for_modeling) -/
/- ------------------------------------------------------------------ -/

/-- Form multiplier of `prepare_data_for_modeling` (lines 56-63):
`np.select` evaluates the conditions in order, first match wins,
default 0.8. -/
def form_multiplier {α : Type} [LinearOrderedField α] (form : α) : α :=
  if 6.0 ≤ form then 1.1
  else if 2.0 ≤ form then 1
  else if 0 ≤ form then 0.9
  else 0.8

/-- Input row of `prepare_data_for_modeling`: the roster columns it reads. -/
structure RawPlayer where
  player_id : ℕ
  now_cost : ℚ
  expected_goals_per_90 : ℚ
  expected_assists_per_90 : ℚ
  saves_per_90 : ℚ
  minutes : ℚ
  bonus : ℚ
  yellow_cards : ℚ
  defensive_contribution : ℚ
  form : ℚ
  xMin16 : ℚ
deriving DecidableEq

/-- Output row of `prepare_data_for_modeling`. -/
structure ModelPlayer where
  player_id : ℕ
  now_cost : ℚ
  expected_goals_per_90 : ℚ
  expected_assists_per_90 : ℚ
  saves_per_90 : ℚ
  minutes : ℚ
  xMin16 : ℚ
  bonus_per_90 : ℚ
  yellow_cards_per_90 : ℚ
  def_contrib_per90 : ℚ
  form_multiplier : ℚ
deriving DecidableEq

/-- Column derivations of `prepare_data_for_modeling` (lines 50-63): cost
rescaling, per-90 conversions and the form multiplier. -/
def prepare_transform (p : RawPlayer) : ModelPlayer :=
  ⟨p.player_id, p.now_cost / 10, p.expected_goals_per_90, p.expected_assists_per_90,
   p.saves_per_90, p.minutes, p.xMin16,
   p.bonus / p.minutes * 90, p.yellow_cards / p.minutes * 90,
   p.defensive_contribution / p.minutes * 90, form_multiplier p.form⟩

/-- `prepare_data_for_modeling` (lines 34-65): subset to players with more
than 250 current-season minutes and more than 55 expected minutes for the
nearest gameweek, then derive the modeling columns. -/
def prepare_data_for_modeling (ps : List RawPlayer) : List ModelPlayer :=
  (((ps.filter (fun p => decide (p.minutes > 250))).filter
      (fun p => decide (p.xMin16 > 55))).map prepare_transform)

/- ------------------------------------------------------------------ -/
/- History fill (fpl_model.py, fill_missing_history_with_current) -/
/- ------------------------------------------------------------------ -/

/-- Player row after the left merge with the history frame: the five blended
history columns may be missing (NaN), modelled as `Option`. -/
structure HistPlayer where
  expected_goals_per_90 : ℚ
  expected_assists_per_90 : ℚ
  bonus_per_90 : ℚ
  saves_per_90 : ℚ
  yellow_cards_per_90 : ℚ
  g : Option ℚ
  a : Option ℚ
  b : Option ℚ
  s : Option ℚ
  y : Option ℚ
deriving DecidableEq

/-- `fill_missing_history_with_current` (lines 67-74): each missing history
column is replaced, via `fillna`, by the corresponding current-season rate. -/
def fill_missing_history_with_current (p : HistPlayer) : HistPlayer :=
  ⟨p.expected_goals_per_90, p.expected_assists_per_90, p.bonus_per_90,
   p.saves_per_90, p.yellow_cards_per_90,
   some (p.g.getD p.expected_goals_per_90),
   some (p.a.getD p.expected_assists_per_90),
   some (p.b.getD p.bonus_per_90),
   some (p.s.getD p.saves_per_90),
   some (p.y.getD p.yellow_cards_per_90)⟩

/- ------------------------------------------------------------------ -/
/- Horizon decay (fpl_model.py, apply_decay) -/
/- ------------------------------------------------------------------ -/

/-- `apply_decay` (lines 158-168): the i-th future gameweek projection is
scaled by `decay_rate ** i` and the six scaled values are summed into
`total_decayed_points`.  The list holds the per-gameweek expected points for
gameweeks 16 to 21, nearest first. -/
def apply_decay (expected_points : List ℚ) (decay_rate : ℚ := 0.92) : ℚ :=
  ((expected_points.enum.map (fun ie => ie.2 * decay_rate ^ ie.1)).sum)

/- ------------------------------------------------------------------ -/
/- Squad optimizer (fpl_solver.py, solve_fpl_team) -/
/- ------------------------------------------------------------------ -/

/-- Position codes of the roster (`singular_name` merged in `fpl_data.py`). -/
inductive Position where
  | Goalkeeper
  | Defender
  | Midfielder
  | Forward
deriving DecidableEq

/-- Squad role tag attached during result extraction
(`fpl_solver.py` line 85). -/
inductive Role where
  | Starter
  | Bench
deriving DecidableEq

/-- The two selection modes of `solve_fpl_team`. -/
inductive Mode where
  | wildcard
  | free_hit
deriving DecidableEq

/-- The columns of the projected population that `solve_fpl_team` reads
(`fpl_solver.py` lines 13-21). -/
structure SolverPlayer where
  player_id : ℕ
  name : String
  team_name : String
  position : Position
  now_cost : ℚ
  total_decayed_points : ℚ
  expected_points16 : ℚ
deriving DecidableEq

/-- A value of the binary decision variables `Squad` and `Starter`, keyed by
player id. -/
structure SolverAssignment where
  squad : ℕ → Bool
  starter : ℕ → Bool

/-- Number of selected squad members among the population. -/
def squad_size (ps : List SolverPlayer) (a : SolverAssignment) : ℕ :=
  ps.countP (fun p => a.squad p.player_id)

/-- Number of selected starters among the population. -/
def starter_size (ps : List SolverPlayer) (a : SolverAssignment) : ℕ :=
  ps.countP (fun p => a.starter p.player_id)

/-- Total cost of the selected squad (`costs[i] * squad_vars[i]` summed). -/
def squad_cost (ps : List SolverPlayer) (a : SolverAssignment) : ℚ :=
  ((ps.filter (fun p => a.squad p.player_id)).map SolverPlayer.now_cost).sum

/-- Total cost of the selected starters. -/
def starter_cost (ps : List SolverPlayer) (a : SolverAssignment) : ℚ :=
  ((ps.filter (fun p => a.starter p.player_id)).map SolverPlayer.now_cost).sum

/-- Selected squad members from one club. -/
def team_count (ps : List SolverPlayer) (a : SolverAssignment) (t : String) : ℕ :=
  ps.countP (fun p => a.squad p.player_id && p.team_name == t)

/-- Selected squad members in one position. -/
def pos_count (ps : List SolverPlayer) (a : SolverAssignment) (pos : Position) : ℕ :=
  ps.countP (fun p => a.squad p.player_id && p.position == pos)

/-- Selected starters in one position. -/
def starter_pos_count (ps : List SolverPlayer) (a : SolverAssignment) (pos : Position) : ℕ :=
  ps.countP (fun p => a.starter p.player_id && p.position == pos)

/-- The constraint set that `solve_fpl_team` adds to the integer program
(`fpl_solver.py` lines 39-70): squad and starter cardinalities, the linking
constraint, the 100 budget, the wildcard-only bench-cost floor, the per-club
cap, the exact position quotas (note the forward quota is 3) and the
starting-lineup position bounds. -/
def squad_constraints (mode : Mode) (ps : List SolverPlayer) (a : SolverAssignment) : Prop :=
  squad_size ps a = 15 ∧
  starter_size ps a = 11 ∧
  (∀ p ∈ ps, a.starter p.player_id = true → a.squad p.player_id = true) ∧
  squad_cost ps a ≤ 100 ∧
  (mode = Mode.wildcard → 18.5 ≤ squad_cost ps a - starter_cost ps a) ∧
  (∀ p ∈ ps, team_count ps a p.team_name ≤ 3) ∧
  pos_count ps a Position.Goalkeeper = 2 ∧
  pos_count ps a Position.Defender = 5 ∧
  pos_count ps a Position.Midfielder = 5 ∧
  pos_count ps a Position.Forward = 3 ∧
  starter_pos_count ps a Position.Goalkeeper = 1 ∧
  3 ≤ starter_pos_count ps a Position.Defender ∧
  1 ≤ starter_pos_count ps a Position.Forward

/-- One record of the result frame built in `solve_fpl_team`
(lines 82-93). -/
structure SquadEntry where
  role : Role
  name : String
  team : String
  pos : Position
  cost : ℚ
  points : ℚ
deriving DecidableEq

/-- Result-record construction for one selected player
(`fpl_solver.py` lines 85-93). -/
def entry_of (mode : Mode) (a : SolverAssignment) (p : SolverPlayer) : SquadEntry :=
  ⟨if a.starter p.player_id then Role.Starter else Role.Bench,
   p.name, p.team_name, p.position, p.now_cost,
   match mode with
   | Mode.free_hit => p.expected_points16
   | Mode.wildcard => p.total_decayed_points⟩

/-- Role sort key (`role_map`, line 98). -/
def role_sort : Role → ℕ
  | Role.Starter => 0
  | Role.Bench => 1

/-- Position sort key (`pos_map`, line 99). -/
def pos_sort : Position → ℕ
  | Position.Goalkeeper => 0
  | Position.Defender => 1
  | Position.Midfielder => 2
  | Position.Forward => 3

/-- Comparison used for the readable output ordering
(`sort_values(by=["r_sort", "p_sort"])`, line 102). -/
def result_le (e1 e2 : SquadEntry) : Bool :=
  decide (role_sort e1.role < role_sort e2.role) ||
    (decide (role_sort e1.role = role_sort e2.role) && decide (pos_sort e1.pos ≤ pos_sort e2.pos))

/-- Result extraction of `solve_fpl_team` (lines 82-104): the selected
players, tagged Starter or Bench, sorted by role then position. -/
def format_results (mode : Mode) (ps : List SolverPlayer) (a : SolverAssignment) :
    List SquadEntry :=
  ((ps.filter (fun p => a.squad p.player_id)).map (entry_of mode a)).mergeSort result_le

/-- `solve_fpl_team` (`fpl_solver.py` lines 4-104).  Modelled from the spec:
the external mixed-integer-programming solving capability invoked through
`pulp.PULP_CBC_CMD` is not part of the sources; per section 4.3 of the spec it
is a black box that either reports that no optimal solution exists (modelled
as `none`, the code then returns `None`) or yields a value of the binary
decision variables satisfying every constraint of the model.  The solver
outcome is therefore passed in as `solver_result`; the constraint guarantee
is a hypothesis of the theorems below. -/
def solve_fpl_team (mode : Mode) (ps : List SolverPlayer)
    (solver_result : Option SolverAssignment) : Option (List SquadEntry) :=
  match solver_result with
  | none => none
  | some a => some (format_results mode ps a)

/-- A concrete 15-player population used to witness the optimizer theorems:
three players from each of five clubs, all costing 6.0. -/
def demo_player (pid : ℕ) (team : String) (pos : Position) : SolverPlayer :=
  ⟨pid, "P", team, pos, 6, 0, 0⟩

/-- Concrete population: 2 goalkeepers, 5 defenders, 5 midfielders,
3 forwards. -/
def demo_players : List SolverPlayer :=
  [demo_player 1 "T1" Position.Goalkeeper, demo_player 2 "T1" Position.Goalkeeper,
   demo_player 3 "T1" Position.Defender, demo_player 4 "T2" Position.Defender,
   demo_player 5 "T2" Position.Defender, demo_player 6 "T2" Position.Defender,
   demo_player 7 "T3" Position.Defender, demo_player 8 "T3" Position.Midfielder,
   demo_player 9 "T3" Position.Midfielder, demo_player 10 "T4" Position.Midfielder,
   demo_player 11 "T4" Position.Midfielder, demo_player 12 "T4" Position.Midfielder,
   demo_player 13 "T5" Position.Forward, demo_player 14 "T5" Position.Forward,
   demo_player 15 "T5" Position.Forward]

/-- Concrete assignment selecting all fifteen demo players with eleven
starters. -/
def demo_assignment : SolverAssignment :=
  ⟨fun pid => decide (1 ≤ pid ∧ pid ≤ 15),
   fun pid => decide (pid ∈ [1, 3, 4, 5, 6, 8, 9, 10, 11, 13, 14])⟩

/- ------------------------------------------------------------------ -/
/- Opponent goal probabilities (fpl_model.py, calculate_opp_goal_probs) -/
/- ------------------------------------------------------------------ -/

/-- The Poisson intensity `lam = -np.log(cs_prob)` of
`calculate_opp_goal_probs` (line 23). -/
noncomputable def lam (cs_prob : ℝ) : ℝ :=
  -Real.log cs_prob

/-- The probability `p0 = np.exp(-lam)` of conceding exactly 0 goals
(line 24). -/
noncomputable def concede0 (cs_prob : ℝ) : ℝ :=
  Real.exp (-(lam cs_prob))

/-- The probability `p1 = lam * p0` of conceding exactly 1 goal (line 25). -/
noncomputable def concede1 (cs_prob : ℝ) : ℝ :=
  lam cs_prob * concede0 cs_prob

/-- `calculate_opp_goal_probs` (lines 18-32): returns
`(p23, p4plus) = (p2 + p3, 1 - (p0 + p1 + p2 + p3))` with
`p2 = lam**2 * p0 / 2` and `p3 = lam**3 * p0 / 6`. -/
noncomputable def calculate_opp_goal_probs (cs_prob : ℝ) : ℝ × ℝ :=
  let l := lam cs_prob
  let p0 := concede0 cs_prob
  let p1 := concede1 cs_prob
  let p2 := l ^ 2 * p0 / 2
  let p3 := l ^ 3 * p0 / 6
  (p2 + p3, 1 - (p0 + p1 + p2 + p3))

/- ------------------------------------------------------------------ -/
/- Per-gameweek projection (fpl_model.py, compute_gw_points) -/
/- ------------------------------------------------------------------ -/

/-- The static difficulty table `DIFFICULTY_MAP` (lines 5-16). -/
def DIFFICULTY_MAP : List (String × ℝ) :=
  [("ARS", 0.85), ("MCI", 0.85), ("LIV", 0.85), ("BRE", 0.85),
   ("MUN", 0.90), ("NEW", 0.90), ("EVE", 0.90), ("CHE", 0.90),
   ("CRY", 1.00), ("FUL", 1.00), ("BHA", 1.00), ("AVL", 1.00),
   ("BOU", 1.10), ("NFO", 1.10), ("TOT", 1.10), ("SUN", 1.10),
   ("LEE", 1.20), ("WHU", 1.20), ("WOL", 1.20), ("BUR", 1.20)]

/-- Dictionary lookup used by `df[opp_col].map(DIFFICULTY_MAP)`: an unknown
code maps to a missing value. -/
def lookup_difficulty (code : String) : Option ℝ :=
  DIFFICULTY_MAP.lookup code

/-- Fixture multiplier (line 90): `map(DIFFICULTY_MAP).fillna(1.0)` — a
missing opponent entry and an unknown code both become the neutral 1.0. -/
def fixture_mult (opp : Option String) : ℝ :=
  ((opp.bind lookup_difficulty).getD 1)

/-- Poisson cumulative distribution `poisson.cdf(k, lam)` used for the
defensive-contribution threshold probabilities (lines 94-95). -/
noncomputable def poisson_cdf (k : ℕ) (l : ℝ) : ℝ :=
  ∑ j ∈ Finset.range (k + 1), Real.exp (-l) * l ^ j / (Nat.factorial j)

/-- The position weight set passed to `compute_gw_points`
(`run_projections`, lines 136-139).  The key `def` of the Python dict is
rendered `def_weight`, the name used by the docstring of
`compute_gw_points`. -/
structure GwWeights where
  goal : ℝ
  assist : ℝ
  cs : ℝ
  save : ℝ
  def_weight : ℝ
  defcon1 : ℝ
  defcon2 : ℝ

/-- The per-player columns that `compute_gw_points` reads for one gameweek.
The per-team fixture columns (`Opp{gw}`, `xClean_sheets{gw}`, `x2_{gw}`,
`x4_{gw}`) come from a left merge and may be missing (NaN), modelled as
`Option`. -/
structure GwRow where
  opp : Option String
  cs : Option ℝ
  x2 : Option ℝ
  x4 : Option ℝ
  xmin : ℝ
  expected_goals_per_90 : ℝ
  expected_assists_per_90 : ℝ
  bonus_per_90 : ℝ
  saves_per_90 : ℝ
  yellow_cards_per_90 : ℝ
  g : ℝ
  a : ℝ
  b : ℝ
  s : ℝ
  y : ℝ
  def_contrib_per90 : ℝ
  form_multiplier : ℝ

/-- The expected-points formula of `compute_gw_points` (lines 93-121) when
the clean-sheet and concede-probability entries are present. -/
noncomputable def gw_points_value (w : GwWeights) (r : GwRow) (cs x2 x4 : ℝ) : ℝ :=
  let fm := fixture_mult r.opp
  let lambda_def := r.def_contrib_per90 * (1 - 0.5 * cs)
  let p_10 := 1 - poisson_cdf 9 lambda_def
  let p_12 := 1 - poisson_cdf 11 lambda_def
  let offensive_points :=
    ((r.expected_goals_per_90 * 0.7 + r.g * 0.3) * r.form_multiplier * fm * w.goal +
     (r.bonus_per_90 * 0.7 + r.b * 0.3) * r.form_multiplier * fm +
     (r.expected_assists_per_90 * 0.7 + r.a * 0.3) * r.form_multiplier * fm * w.assist) *
    (r.xmin / 90)
  let defensive_points :=
    cs * w.cs + (r.saves_per_90 * 0.5 + r.s * 0.5) * w.save -
    x2 * w.def_weight - 2 * x4 * w.def_weight +
    2 * p_10 * w.defcon1 + 2 * p_12 * w.defcon2
  2 + offensive_points + defensive_points -
    (r.yellow_cards_per_90 * 0.3 + r.y * 0.7)

/-- `compute_gw_points` for one player row (lines 76-122).  The arithmetic of
lines 93-121 applied to a missing (NaN) clean-sheet or concede-probability
entry yields NaN for the expected points of that week, modelled as `none`;
the missing opponent entry case is absorbed by `fixture_mult`. -/
noncomputable def compute_gw_points (w : GwWeights) (r : GwRow) : Option ℝ :=
  match r.cs, r.x2, r.x4 with
  | some cs, some x2, some x4 => some (gw_points_value w r cs x2 x4)
  | _, _, _ => none

/-- Forward weight set `w_fwd` (line 136). -/
def w_fwd : GwWeights :=
  ⟨4, 3, 0, 0, 0, 0, 1⟩

/-- A concrete row whose team has no fixture entry for the week: opponent,
clean-sheet and concede probabilities are all missing. -/
def demo_row_missing : GwRow :=
  ⟨none, none, none, none, 90, 0.45, 0.2, 0.1, 0, 0.1, 0.4, 0.2, 0.1, 0, 0.1, 1.5, 1⟩

/-- The same row with the clean-sheet and concede-probability entries
substituted by the defaults the claim asserts (probability 0). -/
def demo_row_defaulted : GwRow :=
  ⟨none, some 0, some 0, some 0, 90, 0.45, 0.2, 0.1, 0, 0.1, 0.4, 0.2, 0.1, 0, 0.1, 1.5, 1⟩

/- ------------------------------------------------------------------ -/
/- Theorems -/
/- ------------------------------------------------------------------ -/

/-- C4: for every eligible-season count n in 1, 2, 3, the historical-blend
weight vector has length n, sums to 1.0 and assigns its largest weight to the
last (most recent) season; and blending the per-90 goal rates 0.3 (oldest)
and 0.5 (most recent) of a player with exactly two eligible seasons yields
exactly 0.35 * 0.3 + 0.65 * 0.5 = 0.430. -/
theorem history_weights_spec :
    (∀ n : ℕ, n = 1 ∨ n = 2 ∨ n = 3 →
      (history_weights n).length = n ∧
      (history_weights n).sum = 1 ∧
      ∀ w ∈ history_weights n, w ≤ (history_weights n).getLastD 0) ∧
    blend_stat [0.3, 0.5] = 0.43 := by
  constructor
  · rintro n (rfl | rfl | rfl) <;>
      refine ⟨by norm_num [history_weights], by norm_num [history_weights], ?_⟩ <;>
      · intro w hw
        simp only [history_weights, List.getLastD] at hw ⊢
        norm_num at hw ⊢
        rcases hw with rfl | h <;> try rcases h with rfl | h <;> try rcases h with rfl | h
        all_goals norm_num
  · simp only [blend_stat, history_weights, List.zip, List.zipWith, List.length,
      List.map, List.sum_cons, List.sum_nil]
    norm_num

/-- Witness for `history_weights_spec` at the two-season count. -/
theorem history_weights_spec_applied :
    (history_weights 2).length = 2 ∧
    (history_weights 2).sum = 1 ∧
    (∀ w ∈ history_weights 2, w ≤ (history_weights 2).getLastD 0) :=
  history_weights_spec.1 2 (Or.inr (Or.inl rfl))

/-- C7: a player with the no-data history sentinel (all five blended history
columns missing after the left merge) gets the current-season rates
substituted exactly: g from expected-goals-per-90, a from
expected-assists-per-90, b from bonus-per-90, s from saves-per-90 and y from
yellow-cards-per-90; the fill is total, so missing history never propagates
as an error. -/
theorem fill_missing_history_defaults :
    ∀ p : HistPlayer,
      p.g = none → p.a = none → p.b = none → p.s = none → p.y = none →
      (fill_missing_history_with_current p).g = some p.expected_goals_per_90 ∧
      (fill_missing_history_with_current p).a = some p.expected_assists_per_90 ∧
      (fill_missing_history_with_current p).b = some p.bonus_per_90 ∧
      (fill_missing_history_with_current p).s = some p.saves_per_90 ∧
      (fill_missing_history_with_current p).y = some p.yellow_cards_per_90 := by
  intro p hg ha hb hs hy
  simp [fill_missing_history_with_current, hg, ha, hb, hs, hy]

/-- Witness for `fill_missing_history_defaults`: a player with
expected-goals-per-90 equal to 0.45 and no eligible history blends to
exactly 0.45. -/
theorem fill_missing_history_defaults_applied :
    (fill_missing_history_with_current
        ⟨0.45, 0.3, 0.2, 0, 0.1, none, none, none, none, none⟩).g = some 0.45 :=
  (fill_missing_history_defaults ⟨0.45, 0.3, 0.2, 0, 0.1, none, none, none, none, none⟩
    rfl rfl rfl rfl rfl).1

/-- C8: the aggregate projection is the sum over the six-week horizon of the
i-th future gameweek projection scaled by `0.92 ^ i` (i = 0 nearest), and the
six decay weights are strictly decreasing and strictly positive. -/
theorem apply_decay_decayed_sum :
    (∀ e0 e1 e2 e3 e4 e5 : ℚ,
      apply_decay [e0, e1, e2, e3, e4, e5] 0.92 =
        e0 * 0.92 ^ 0 + e1 * 0.92 ^ 1 + e2 * 0.92 ^ 2 + e3 * 0.92 ^ 3 +
          e4 * 0.92 ^ 4 + e5 * 0.92 ^ 5) ∧
    ((0.92 : ℚ) ^ 0 = 1 ∧
     (0.92 : ℚ) ^ 1 < (0.92 : ℚ) ^ 0 ∧
     (0.92 : ℚ) ^ 2 < (0.92 : ℚ) ^ 1 ∧
     (0.92 : ℚ) ^ 3 < (0.92 : ℚ) ^ 2 ∧
     (0.92 : ℚ) ^ 4 < (0.92 : ℚ) ^ 3 ∧
     (0.92 : ℚ) ^ 5 < (0.92 : ℚ) ^ 4 ∧
     0 < (0.92 : ℚ) ^ 5) := by
  constructor
  · intro e0 e1 e2 e3 e4 e5
    simp [apply_decay, List.enum]
    ring
  · norm_num

/-- C9: the form multiplier is the descending-threshold step function with
values 1.1 (form at least 6.0), 1.0 (at least 2.0), 0.9 (at least 0) and 0.8
otherwise, and it is monotonically non-decreasing in the form index over the
reals. -/
theorem form_multiplier_steps_monotone :
    (∀ x y : ℝ, x ≤ y → form_multiplier x ≤ form_multiplier y) ∧
    (∀ x : ℝ, 6.0 ≤ x → form_multiplier x = 1.1) ∧
    (∀ x : ℝ, 2.0 ≤ x → x < 6.0 → form_multiplier x = 1) ∧
    (∀ x : ℝ, 0 ≤ x → x < 2.0 → form_multiplier x = 0.9) ∧
    (∀ x : ℝ, x < 0 → form_multiplier x = 0.8) := by
  refine ⟨?_, ?_, ?_, ?_, ?_⟩
  · intro x y hxy
    unfold form_multiplier
    split_ifs with a b c d e f g h i j k l
    all_goals try norm_num
    all_goals (push_neg at *; try linarith)
  · intro x hx
    rw [form_multiplier, if_pos hx]
  · intro x h2 h6
    rw [form_multiplier, if_neg (by linarith), if_pos h2]
  · intro x h0 h2
    rw [form_multiplier, if_neg (by linarith), if_neg (by linarith), if_pos h0]
  · intro x h0
    rw [form_multiplier, if_neg (by linarith), if_neg (by linarith), if_neg (by linarith)]

/-- Witness for `form_multiplier_steps_monotone` at form indices 3 and 7. -/
theorem form_multiplier_steps_monotone_applied :
    form_multiplier (3 : ℝ) ≤ form_multiplier (7 : ℝ) ∧
    form_multiplier (7 : ℝ) = 1.1 ∧
    form_multiplier (3 : ℝ) = 1 ∧
    form_multiplier (-1 : ℝ) = 0.8 :=
  ⟨form_multiplier_steps_monotone.1 3 7 (by norm_num),
   form_multiplier_steps_monotone.2.1 7 (by norm_num),
   form_multiplier_steps_monotone.2.2.1 3 (by norm_num) (by norm_num),
   form_multiplier_steps_monotone.2.2.2.2 (-1) (by norm_num)⟩

/-- C6: every player retained in the modeling population has strictly more
than 250 current-season minutes and strictly more than 55 expected nearest
gameweek minutes; a roster player failing either threshold contributes no row
to the modeling population (assuming the roster ids are distinct), so it is
neither projected nor eligible for selection. -/
theorem prepare_population_thresholds :
    (∀ (ps : List RawPlayer) (q : ModelPlayer),
      q ∈ prepare_data_for_modeling ps → 250 < q.minutes ∧ 55 < q.xMin16) ∧
    (∀ ps : List RawPlayer, (ps.map RawPlayer.player_id).Nodup →
      ∀ p ∈ ps, p.minutes ≤ 250 ∨ p.xMin16 ≤ 55 →
      ∀ q ∈ prepare_data_for_modeling ps, q.player_id ≠ p.player_id) := by
  constructor
  · intro ps q hq
    obtain ⟨p, hp, rfl⟩ := List.mem_map.1 hq
    obtain ⟨hp1, hx⟩ := List.mem_filter.1 hp
    obtain ⟨_, hm⟩ := List.mem_filter.1 hp1
    exact ⟨of_decide_eq_true hm, of_decide_eq_true hx⟩
  · intro ps hnd p hp hbad q hq hid
    obtain ⟨p2, hp2, rfl⟩ := List.mem_map.1 hq
    obtain ⟨hp21, hx⟩ := List.mem_filter.1 hp2
    obtain ⟨hmem, hm⟩ := List.mem_filter.1 hp21
    have heq : p2 = p := List.inj_on_of_nodup_map hnd hmem hp hid
    subst heq
    rcases hbad with hb | hb
    · exact absurd (of_decide_eq_true hm) (not_lt.2 hb)
    · exact absurd (of_decide_eq_true hx) (not_lt.2 hb)

/-- A raw roster row passing both modeling thresholds. -/
def demo_raw_ok : RawPlayer :=
  ⟨1, 60, 0.45, 0.2, 0, 900, 10, 3, 30, 5, 80⟩

/-- A raw roster row failing the minutes threshold. -/
def demo_raw_low : RawPlayer :=
  ⟨2, 60, 0.45, 0.2, 0, 100, 10, 3, 30, 5, 80⟩

/-- Witness for `prepare_population_thresholds` on a concrete two-player
roster. -/
theorem prepare_population_thresholds_applied :
    (250 < (prepare_transform demo_raw_ok).minutes ∧
      55 < (prepare_transform demo_raw_ok).xMin16) ∧
    (prepare_transform demo_raw_ok).player_id ≠ demo_raw_low.player_id := by
  have hmem : prepare_transform demo_raw_ok ∈
      prepare_data_for_modeling [demo_raw_ok, demo_raw_low] := by
    have hlist : prepare_data_for_modeling [demo_raw_ok, demo_raw_low] =
        [prepare_transform demo_raw_ok] := by
      simp only [prepare_data_for_modeling, demo_raw_ok, demo_raw_low, List.filter_cons,
        List.filter_nil, decide_eq_true_eq]
      norm_num
    rw [hlist]
    exact List.mem_singleton.2 rfl
  constructor
  · exact prepare_population_thresholds.1 [demo_raw_ok, demo_raw_low]
      (prepare_transform demo_raw_ok) hmem
  · exact prepare_population_thresholds.2 [demo_raw_ok, demo_raw_low]
      (by simp [demo_raw_ok, demo_raw_low])
      demo_raw_low (List.mem_cons_of_mem _ (List.mem_singleton.2 rfl))
      (Or.inl (by norm_num [demo_raw_low]))
      (prepare_transform demo_raw_ok) hmem

/-- Unfolding of the first component (`p23`) of `calculate_opp_goal_probs`. -/
lemma calc_opp_fst (p : ℝ) :
    (calculate_opp_goal_probs p).1 =
      lam p ^ 2 * concede0 p / 2 + lam p ^ 3 * concede0 p / 6 :=
  rfl

/-- Unfolding of the second component (`p4plus`) of
`calculate_opp_goal_probs`. -/
lemma calc_opp_snd (p : ℝ) :
    (calculate_opp_goal_probs p).2 =
      1 - (concede0 p + concede1 p +
        lam p ^ 2 * concede0 p / 2 + lam p ^ 3 * concede0 p / 6) :=
  rfl

/-- The cubic Taylor polynomial of the exponential, scaled by
`exp (-l)`, is at most 1 for nonnegative `l`. -/
lemma exp_neg_mul_cubic_taylor_le_one {l : ℝ} (hl : 0 ≤ l) :
    Real.exp (-l) * (1 + l + l ^ 2 / 2 + l ^ 3 / 6) ≤ 1 := by
  have h := Real.sum_le_exp_of_nonneg hl 4
  have hsum : ∑ i ∈ Finset.range 4, l ^ i / (Nat.factorial i) =
      1 + l + l ^ 2 / 2 + l ^ 3 / 6 := by
    rw [Finset.sum_range_succ, Finset.sum_range_succ, Finset.sum_range_succ,
      Finset.sum_range_succ, Finset.sum_range_zero]
    norm_num [Nat.factorial]
  rw [hsum] at h
  have he : (0 : ℝ) < Real.exp (-l) := Real.exp_pos _
  calc Real.exp (-l) * (1 + l + l ^ 2 / 2 + l ^ 3 / 6)
      ≤ Real.exp (-l) * Real.exp l := mul_le_mul_of_nonneg_left h he.le
    _ = 1 := by rw [← Real.exp_add]; norm_num

/-- For a clean-sheet probability in (0, 1], all four outcome probabilities
are within [0, 1]. -/
lemma goal_probs_bounds (p : ℝ) (hp : 0 < p) (hp1 : p ≤ 1) :
    (0 ≤ concede0 p ∧ concede0 p ≤ 1) ∧
    (0 ≤ concede1 p ∧ concede1 p ≤ 1) ∧
    (0 ≤ (calculate_opp_goal_probs p).1 ∧ (calculate_opp_goal_probs p).1 ≤ 1) ∧
    (0 ≤ (calculate_opp_goal_probs p).2 ∧ (calculate_opp_goal_probs p).2 ≤ 1) := by
  have hl : 0 ≤ lam p := by
    have := Real.log_nonpos hp.le hp1
    simp only [lam]
    linarith
  have hc : (0 : ℝ) < concede0 p := Real.exp_pos _
  have ht1 : 0 ≤ lam p * concede0 p := mul_nonneg hl hc.le
  have ht2 : 0 ≤ lam p ^ 2 * concede0 p / 2 := by positivity
  have ht3 : 0 ≤ lam p ^ 3 * concede0 p / 6 := by positivity
  have hS : concede0 p + lam p * concede0 p +
      lam p ^ 2 * concede0 p / 2 + lam p ^ 3 * concede0 p / 6 ≤ 1 := by
    have := exp_neg_mul_cubic_taylor_le_one hl
    calc concede0 p + lam p * concede0 p +
        lam p ^ 2 * concede0 p / 2 + lam p ^ 3 * concede0 p / 6
        = Real.exp (-(lam p)) * (1 + lam p + lam p ^ 2 / 2 + lam p ^ 3 / 6) := by
          rw [concede0]; ring
      _ ≤ 1 := this
  rw [calc_opp_fst, calc_opp_snd, concede1]
  refine ⟨⟨hc.le, by linarith⟩, ⟨ht1, by linarith⟩, ⟨by linarith, by linarith⟩,
    ⟨by linarith, by linarith⟩⟩

/-- C3: for a clean-sheet probability p in (0, 1), the probabilities of
conceding exactly 0, exactly 1, 2-or-3 and 4-plus goals are each in [0, 1]
and sum exactly to 1; and as p tends to 1 from below, both returned values
(`p_2or3` and `p_4plus`) tend to 0. -/
theorem calculate_opp_goal_probs_distribution :
    (∀ p : ℝ, 0 < p → p < 1 →
      (0 ≤ concede0 p ∧ concede0 p ≤ 1) ∧
      (0 ≤ concede1 p ∧ concede1 p ≤ 1) ∧
      (0 ≤ (calculate_opp_goal_probs p).1 ∧ (calculate_opp_goal_probs p).1 ≤ 1) ∧
      (0 ≤ (calculate_opp_goal_probs p).2 ∧ (calculate_opp_goal_probs p).2 ≤ 1) ∧
      concede0 p + concede1 p + (calculate_opp_goal_probs p).1 +
        (calculate_opp_goal_probs p).2 = 1) ∧
    Filter.Tendsto (fun p => (calculate_opp_goal_probs p).1)
      (nhdsWithin 1 (Set.Iio 1)) (nhds 0) ∧
    Filter.Tendsto (fun p => (calculate_opp_goal_probs p).2)
      (nhdsWithin 1 (Set.Iio 1)) (nhds 0) := by
  have hlamc : ContinuousAt lam 1 := (Real.continuousAt_log one_ne_zero).neg
  have hc0c : ContinuousAt concede0 1 :=
    Real.continuous_exp.continuousAt.comp hlamc.neg
  have hc1c : ContinuousAt concede1 1 := hlamc.mul hc0c
  have hfst : ContinuousAt (fun p => (calculate_opp_goal_probs p).1) 1 :=
    (((hlamc.pow 2).mul hc0c).div_const 2).add (((hlamc.pow 3).mul hc0c).div_const 6)
  have hsnd : ContinuousAt (fun p => (calculate_opp_goal_probs p).2) 1 :=
    continuousAt_const.sub
      (((hc0c.add hc1c).add (((hlamc.pow 2).mul hc0c).div_const 2)).add
        (((hlamc.pow 3).mul hc0c).div_const 6))
  have hv1 : (calculate_opp_goal_probs 1).1 = 0 := by
    rw [calc_opp_fst]
    simp [lam, concede0]
  have hv2 : (calculate_opp_goal_probs 1).2 = 0 := by
    rw [calc_opp_snd]
    simp [lam, concede1, concede0]
  refine ⟨?_, ?_, ?_⟩
  · intro p hp hp1
    obtain ⟨h0, h1, h2, h3⟩ := goal_probs_bounds p hp hp1.le
    refine ⟨h0, h1, h2, h3, ?_⟩
    rw [calc_opp_fst, calc_opp_snd]
    ring
  · have ht := hfst.tendsto
    simp only [hv1] at ht
    exact ht.mono_left nhdsWithin_le_nhds
  · have ht := hsnd.tendsto
    simp only [hv2] at ht
    exact ht.mono_left nhdsWithin_le_nhds

/-- Witness for `calculate_opp_goal_probs_distribution` at clean-sheet
probability one half. -/
theorem calculate_opp_goal_probs_distribution_applied :
    concede0 (1 / 2 : ℝ) + concede1 (1 / 2 : ℝ) +
      (calculate_opp_goal_probs (1 / 2 : ℝ)).1 +
      (calculate_opp_goal_probs (1 / 2 : ℝ)).2 = 1 :=
  (calculate_opp_goal_probs_distribution.1 (1 / 2) (by norm_num) (by norm_num)).2.2.2.2

/-- C10: `calculate_opp_goal_probs` is faithful exactly on positive
clean-sheet probabilities: there `p0 = exp(-lam)` recovers the input; as the
input tends to 0 from above the intermediate `lam = -log(cs_prob)` diverges
to infinity; and no real value of the intermediate can represent the input
0 (`exp(-lam)` is never 0), so a strictly positive clean-sheet probability
is a necessary precondition of every call; on (0, 1] the outputs are
well-defined reals with `p4plus` nonnegative. -/
theorem calculate_opp_goal_probs_pos_precondition :
    (∀ p : ℝ, 0 < p → concede0 p = p) ∧
    (∀ p : ℝ, 0 < p → p ≤ 1 →
      0 ≤ (calculate_opp_goal_probs p).2 ∧ (calculate_opp_goal_probs p).1 ≤ 1) ∧
    Filter.Tendsto lam (nhdsWithin 0 (Set.Ioi 0)) Filter.atTop ∧
    (∀ q : ℝ, concede0 q ≠ 0) := by
  refine ⟨?_, ?_, ?_, ?_⟩
  · intro p hp
    rw [concede0, lam, neg_neg, Real.exp_log hp]
  · intro p hp hp1
    obtain ⟨_, _, h2, h3⟩ := goal_probs_bounds p hp hp1
    exact ⟨h3.1, h2.2⟩
  · exact Filter.tendsto_neg_atBot_atTop.comp Real.tendsto_log_nhdsWithin_zero_right
  · intro q
    exact (Real.exp_pos _).ne'

/-- Witness for `calculate_opp_goal_probs_pos_precondition` at clean-sheet
probability one half. -/
theorem calculate_opp_goal_probs_pos_precondition_applied :
    concede0 (1 / 2 : ℝ) = 1 / 2 ∧ 0 ≤ (calculate_opp_goal_probs (1 / 2 : ℝ)).2 :=
  ⟨calculate_opp_goal_probs_pos_precondition.1 (1 / 2) (by norm_num),
   (calculate_opp_goal_probs_pos_precondition.2.1 (1 / 2) (by norm_num) (by norm_num)).1⟩

/-- C2 counterexample: the claim asserts that a player-gameweek with a
missing clean-sheet entry is projected with clean-sheet probability 0.  On
the code, the missing entry propagates (NaN) through `lambda_def` and the
defensive component into the final expected points, so the projection is not
the number obtained by substituting 0: the row with the entry missing
produces no real projection at all, while the defaulted row does. -/
theorem compute_gw_points_missing_cs_not_defaulted :
    compute_gw_points w_fwd demo_row_missing ≠
      compute_gw_points w_fwd demo_row_defaulted ∧
    compute_gw_points w_fwd demo_row_missing = none ∧
    compute_gw_points w_fwd demo_row_defaulted =
      some (gw_points_value w_fwd demo_row_defaulted 0 0 0) := by
  refine ⟨?_, rfl, rfl⟩
  intro h
  exact Option.noConfusion h

/-- C2 (amended): a missing opponent entry (or an unknown opponent code) is
defaulted to the neutral fixture multiplier 1.0, per row, and the projection
is still produced whenever the clean-sheet data is present — the computation
never aborts; but a missing clean-sheet (or derived concede-probability)
entry is not defaulted to probability 0: that week of that player projects
to NaN (`none`), again without aborting. -/
theorem compute_gw_points_missing_data_handling :
    (∀ r : GwRow, r.opp = none → fixture_mult r.opp = 1) ∧
    (∀ (r : GwRow) (c : String), r.opp = some c → lookup_difficulty c = none →
      fixture_mult r.opp = 1) ∧
    (∀ (w : GwWeights) (r : GwRow) (cs x2 x4 : ℝ),
      r.cs = some cs → r.x2 = some x2 → r.x4 = some x4 →
      compute_gw_points w r = some (gw_points_value w r cs x2 x4)) ∧
    (∀ (w : GwWeights) (r : GwRow), r.cs = none → compute_gw_points w r = none) := by
  refine ⟨?_, ?_, ?_, ?_⟩
  · intro r h
    rw [fixture_mult, h]
    rfl
  · intro r c h hl
    rw [fixture_mult, h]
    simp [hl]
  · intro w r cs x2 x4 hcs hx2 hx4
    rw [compute_gw_points, hcs, hx2, hx4]
  · intro w r h
    rw [compute_gw_points, h]

/-- Witness for `compute_gw_points_missing_data_handling` on the concrete
rows. -/
theorem compute_gw_points_missing_data_handling_applied :
    fixture_mult demo_row_missing.opp = 1 ∧
    compute_gw_points w_fwd demo_row_missing = none ∧
    compute_gw_points w_fwd demo_row_defaulted =
      some (gw_points_value w_fwd demo_row_defaulted 0 0 0) :=
  ⟨compute_gw_points_missing_data_handling.1 demo_row_missing rfl,
   compute_gw_points_missing_data_handling.2.2.2 w_fwd demo_row_missing rfl,
   compute_gw_points_missing_data_handling.2.2.1 w_fwd demo_row_defaulted 0 0 0
     rfl rfl rfl⟩

/-- Pointwise-equal Boolean predicates count equally. -/
lemma countP_congr_eq {α : Type} (l : List α) (p q : α → Bool)
    (h : ∀ x ∈ l, p x = q x) : l.countP p = l.countP q :=
  List.countP_congr (fun x hx => by rw [h x hx])

/-- The result list of `format_results` is a permutation of the selected
players mapped to entries. -/
lemma format_results_perm (mode : Mode) (ps : List SolverPlayer) (a : SolverAssignment) :
    (format_results mode ps a).Perm
      ((ps.filter (fun p => a.squad p.player_id)).map (entry_of mode a)) :=
  List.mergeSort_perm _ _

/-- The Starter tag of an extracted entry reflects the starter variable. -/
lemma entry_of_role_beq (mode : Mode) (a : SolverAssignment) (p : SolverPlayer) :
    ((entry_of mode a p).role == Role.Starter) = a.starter p.player_id := by
  cases h : a.starter p.player_id <;> simp [entry_of, h]

/-- Counting entries of the result list by a predicate equals counting
selected players by the transported predicate. -/
lemma format_results_countP (mode : Mode) (ps : List SolverPlayer) (a : SolverAssignment)
    (q : SquadEntry → Bool) (qb : SolverPlayer → Bool)
    (hq : ∀ p, q (entry_of mode a p) = qb p) :
    (format_results mode ps a).countP q =
      ps.countP (fun p => a.squad p.player_id && qb p) := by
  rw [(format_results_perm mode ps a).countP_eq, List.countP_map, List.countP_filter]
  refine countP_congr_eq _ _ _ (fun x hx => ?_)
  simp only [Function.comp, hq x, Bool.and_comm]

/-- The result list has as many entries as selected squad members. -/
lemma format_results_length (mode : Mode) (ps : List SolverPlayer) (a : SolverAssignment) :
    (format_results mode ps a).length = squad_size ps a := by
  rw [(format_results_perm mode ps a).length_eq, List.length_map, squad_size,
    List.countP_eq_length_filter]

/-- The cost column of the result list sums to the squad cost. -/
lemma format_results_cost_sum (mode : Mode) (ps : List SolverPlayer) (a : SolverAssignment) :
    ((format_results mode ps a).map SquadEntry.cost).sum = squad_cost ps a := by
  rw [((format_results_perm mode ps a).map SquadEntry.cost).sum_eq, List.map_map]
  rfl

/-- Under the linking constraint, the cost column of the Starter-tagged
entries sums to the starter cost. -/
lemma format_results_starter_cost_sum (mode : Mode) (ps : List SolverPlayer)
    (a : SolverAssignment)
    (h3 : ∀ p ∈ ps, a.starter p.player_id = true → a.squad p.player_id = true) :
    (((format_results mode ps a).filter (fun e => e.role == Role.Starter)).map
        SquadEntry.cost).sum = starter_cost ps a := by
  rw [(((format_results_perm mode ps a).filter
      (fun e => e.role == Role.Starter)).map SquadEntry.cost).sum_eq]
  rw [List.map_filter, List.filter_filter, List.map_map]
  have hfe : (ps.filter (fun x =>
      ((fun e => e.role == Role.Starter) ∘ entry_of mode a) x &&
        a.squad x.player_id)) = ps.filter (fun x => a.starter x.player_id) := by
    refine List.filter_congr (fun x hx => ?_)
    simp only [Function.comp, entry_of_role_beq]
    cases hs : a.starter x.player_id
    · simp
    · simp [h3 x hx hs]
  rw [hfe]
  rfl

/-- C1: whenever the external solver yields an assignment satisfying the
model constraints (which is what an Optimal status means), the squad that
`solve_fpl_team` returns simultaneously satisfies every selection
constraint: 15 entries, 11 tagged Starter, every starter selected in the
squad, total cost at most 100, at most 3 entries per club, exactly
2/5/5/3 goalkeepers/defenders/midfielders/forwards, exactly 1 starting
goalkeeper, at least 3 starting defenders, at least 1 starting forward, and
in wildcard mode a bench cost of at least 18.5. -/
theorem solve_fpl_team_returns_feasible_squad :
    ∀ (mode : Mode) (ps : List SolverPlayer) (a : SolverAssignment)
      (sq : List SquadEntry),
      squad_constraints mode ps a →
      solve_fpl_team mode ps (some a) = some sq →
      sq.length = 15 ∧
      sq.countP (fun e => e.role == Role.Starter) = 11 ∧
      (∀ p ∈ ps, a.starter p.player_id = true → a.squad p.player_id = true) ∧
      (sq.map SquadEntry.cost).sum ≤ 100 ∧
      (∀ e ∈ sq, sq.countP (fun x => x.team == e.team) ≤ 3) ∧
      sq.countP (fun e => e.pos == Position.Goalkeeper) = 2 ∧
      sq.countP (fun e => e.pos == Position.Defender) = 5 ∧
      sq.countP (fun e => e.pos == Position.Midfielder) = 5 ∧
      sq.countP (fun e => e.pos == Position.Forward) = 3 ∧
      sq.countP (fun e => e.role == Role.Starter && e.pos == Position.Goalkeeper) = 1 ∧
      3 ≤ sq.countP (fun e => e.role == Role.Starter && e.pos == Position.Defender) ∧
      1 ≤ sq.countP (fun e => e.role == Role.Starter && e.pos == Position.Forward) ∧
      (mode = Mode.wildcard →
        18.5 ≤ (sq.map SquadEntry.cost).sum -
          ((sq.filter (fun e => e.role == Role.Starter)).map SquadEntry.cost).sum) := by
  intro mode ps a sq hcon hsolve
  obtain ⟨h1, h2, h3, h4, h5, h6, h7, h8, h9, h10, h11, h12, h13⟩ := hcon
  have hsq : sq = format_results mode ps a := by
    simpa [solve_fpl_team] using hsolve.symm
  subst hsq
  have hstarters : (format_results mode ps a).countP
      (fun e => e.role == Role.Starter) = 11 := by
    rw [format_results_countP mode ps a _ (fun p => a.starter p.player_id)
      (fun p => entry_of_role_beq mode a p)]
    rw [countP_congr_eq ps _ (fun p => a.starter p.player_id) (fun x hx => ?_)]
    · exact h2
    · cases hs : a.starter x.player_id
      · simp [hs]
      · simp [hs, h3 x hx hs]
  have hposc : ∀ pos : Position, (format_results mode ps a).countP
      (fun e => e.pos == pos) = pos_count ps a pos := by
    intro pos
    rw [format_results_countP mode ps a _ (fun p => p.position == pos)
      (fun p => rfl)]
    rfl
  have hspos : ∀ pos : Position, (format_results mode ps a).countP
      (fun e => e.role == Role.Starter && e.pos == pos) =
        starter_pos_count ps a pos := by
    intro pos
    rw [format_results_countP mode ps a _
      (fun p => a.starter p.player_id && p.position == pos)
      (fun p => by rw [entry_of_role_beq]; rfl)]
    refine countP_congr_eq ps _ _ (fun x hx => ?_)
    cases hs : a.starter x.player_id
    · simp [hs]
    · simp [hs, h3 x hx hs]
  refine ⟨?_, hstarters, h3, ?_, ?_, ?_, ?_, ?_, ?_, ?_, ?_, ?_, ?_⟩
  · rw [format_results_length]; exact h1
  · rw [format_results_cost_sum]; exact h4
  · intro e he
    have hmem := (format_results_perm mode ps a).mem_iff.1 he
    obtain ⟨p2, hp2, rfl⟩ := List.mem_map.1 hmem
    rw [format_results_countP mode ps a _
      (fun p => p.team_name == (entry_of mode a p2).team) (fun p => rfl)]
    exact h6 p2 (List.mem_of_mem_filter hp2)
  · rw [hposc]; exact h7
  · rw [hposc]; exact h8
  · rw [hposc]; exact h9
  · rw [hposc]; exact h10
  · rw [hspos]; exact h11
  · rw [hspos]; exact h12
  · rw [hspos]; exact h13
  · intro hm
    rw [format_results_cost_sum, format_results_starter_cost_sum mode ps a h3]
    exact h5 hm

/-- All fifteen demo players are selected. -/
lemma demo_filter_squad :
    demo_players.filter (fun p => demo_assignment.squad p.player_id) = demo_players := by
  decide

/-- The eleven demo starters. -/
lemma demo_filter_starter :
    demo_players.filter (fun p => demo_assignment.starter p.player_id) =
      [demo_player 1 "T1" Position.Goalkeeper,
       demo_player 3 "T1" Position.Defender, demo_player 4 "T2" Position.Defender,
       demo_player 5 "T2" Position.Defender, demo_player 6 "T2" Position.Defender,
       demo_player 8 "T3" Position.Midfielder, demo_player 9 "T3" Position.Midfielder,
       demo_player 10 "T4" Position.Midfielder, demo_player 11 "T4" Position.Midfielder,
       demo_player 13 "T5" Position.Forward, demo_player 14 "T5" Position.Forward] := by
  decide

/-- The demo squad costs 90. -/
lemma demo_squad_cost : squad_cost demo_players demo_assignment = 90 := by
  rw [squad_cost, demo_filter_squad]
  norm_num [demo_players, demo_player]

/-- The demo starters cost 66. -/
lemma demo_starter_cost : starter_cost demo_players demo_assignment = 66 := by
  rw [starter_cost, demo_filter_starter]
  norm_num [demo_player]

/-- The demo assignment satisfies the full wildcard constraint set. -/
lemma demo_constraints : squad_constraints Mode.wildcard demo_players demo_assignment := by
  refine ⟨by decide, by decide, by decide, ?_, ?_, by decide, by decide, by decide,
    by decide, by decide, by decide, by decide, by decide⟩
  · rw [demo_squad_cost]; norm_num
  · intro _
    rw [demo_squad_cost, demo_starter_cost]
    norm_num

/-- The demo assignment also satisfies the free-hit constraint set. -/
lemma demo_constraints_free_hit :
    squad_constraints Mode.free_hit demo_players demo_assignment := by
  obtain ⟨c1, c2, c3, c4, _, c6, c7, c8, c9, c10, c11, c12, c13⟩ := demo_constraints
  exact ⟨c1, c2, c3, c4, fun h => absurd h (by decide), c6, c7, c8, c9, c10, c11,
    c12, c13⟩

/-- Witness for `solve_fpl_team_returns_feasible_squad` on the demo
population. -/
theorem solve_fpl_team_returns_feasible_squad_applied :
    (format_results Mode.wildcard demo_players demo_assignment).length = 15 ∧
    (format_results Mode.wildcard demo_players demo_assignment).countP
      (fun e => e.role == Role.Starter) = 11 ∧
    (format_results Mode.wildcard demo_players demo_assignment).countP
      (fun e => e.pos == Position.Forward) = 3 := by
  have h := solve_fpl_team_returns_feasible_squad Mode.wildcard demo_players
    demo_assignment (format_results Mode.wildcard demo_players demo_assignment)
    demo_constraints rfl
  exact ⟨h.1, h.2.1, h.2.2.2.2.2.2.2.2.1⟩

/-- C5: when the external solver reports that no assignment satisfies the
constraint set (status not Optimal), `solve_fpl_team` returns the explicit
no-squad result `none`; a squad is ever returned only from a successful
solver outcome, and (under the solver contract) it is then a complete
15-player, 11-starter squad — never an incomplete or best-effort one. -/
theorem solve_fpl_team_infeasibility_explicit :
    ∀ (mode : Mode) (ps : List SolverPlayer),
      solve_fpl_team mode ps none = none ∧
      (∀ (r : Option SolverAssignment) (sq : List SquadEntry),
        solve_fpl_team mode ps r = some sq →
        ∃ a, r = some a ∧ sq = format_results mode ps a) ∧
      (∀ (a : SolverAssignment) (sq : List SquadEntry),
        squad_constraints mode ps a →
        solve_fpl_team mode ps (some a) = some sq →
        sq.length = 15 ∧ sq.countP (fun e => e.role == Role.Starter) = 11) := by
  intro mode ps
  refine ⟨rfl, ?_, ?_⟩
  · intro r sq h
    cases r with
    | none => exact absurd h (by simp [solve_fpl_team])
    | some a => exact ⟨a, rfl, by simpa [solve_fpl_team] using h.symm⟩
  · intro a sq hcon hsolve
    obtain ⟨h1, h2, h3, _⟩ := hcon
    have hsq : sq = format_results mode ps a := by
      simpa [solve_fpl_team] using hsolve.symm
    subst hsq
    constructor
    · rw [format_results_length]; exact h1
    · rw [format_results_countP mode ps a _ (fun p => a.starter p.player_id)
        (fun p => entry_of_role_beq mode a p)]
      rw [countP_congr_eq ps _ (fun p => a.starter p.player_id) (fun x hx => ?_)]
      · exact h2
      · cases hs : a.starter x.player_id
        · simp [hs]
        · simp [hs, h3 x hx hs]

/-- Witness for `solve_fpl_team_infeasibility_explicit` on the demo
population. -/
theorem solve_fpl_team_infeasibility_explicit_applied :
    solve_fpl_team Mode.free_hit demo_players none = none ∧
    (format_results Mode.free_hit demo_players demo_assignment).length = 15 :=
  ⟨(solve_fpl_team_infeasibility_explicit Mode.free_hit demo_players).1,
   ((solve_fpl_team_infeasibility_explicit Mode.free_hit demo_players).2.2
      demo_assignment (format_results Mode.free_hit demo_players demo_assignment)
      demo_constraints_free_hit rfl).1⟩

end FplSolver
